import Mathlib

/-!
Shallow embedding of the h-baselines repository:
  * `hbaselines/ppo/policy.py` (class `Model`: PPO loss construction and the
    `train` update step), and
  * `hbaselines/base_policies/base.py` (class `Policy`: the abstract policy
    interface and its static helpers).

A batch of tensor values is a `List ℚ`.  The two transcendental library
primitives the code calls, `tf.exp` (for the probability ratio) and the square
root inside `numpy.ndarray.std`, have no exact counterpart on ℚ, so they are
passed in as explicit function parameters `rexp` and `rsqrt`; every statement
that needs an analytic fact about them (only: the square root is nonnegative
on nonnegative inputs) takes it as an explicit hypothesis.
-/

namespace HB

/-- `tf.reduce_mean` over a batch: the sum divided by the length
(division by zero yields 0 in ℚ, matching that we only ever state facts
needing nonemptiness under that hypothesis). -/
def mean (l : List ℚ) : ℚ := l.sum / l.length

/-- `tf.clip_by_value t lo hi = min (max t lo) hi`, elementwise. -/
def clip_by_value (x lo hi : ℚ) : ℚ := min (max x lo) hi

/-- `numpy.ndarray.std` (population standard deviation, `ddof = 0`):
the square root of the mean squared deviation from the mean.  The square
root itself is the parameter `rsqrt`. -/
def np_std (rsqrt : ℚ → ℚ) (l : List ℚ) : ℚ :=
  rsqrt (mean (l.map (fun a => (a - mean l) ^ 2)))

/-- The placeholder / network-output values that `Model.__init__`'s loss
expressions consume for one training batch: the feeds `ADV`, `R`,
`OLDNEGLOGPAC`, `OLDVPRED` and scalar `clip_range`, together with the
train model's outputs `neglogpac = train_model.pd.neglogp(A)`,
`entropies = train_model.pd.entropy()` and `vpred = train_model.vf`
evaluated on the fed observations and actions. -/
structure LossInputs where
  ADV : List ℚ
  R : List ℚ
  OLDNEGLOGPAC : List ℚ
  OLDVPRED : List ℚ
  neglogpac : List ℚ
  entropies : List ℚ
  vpred : List ℚ
  clip_range : ℚ

namespace Model

/-- `ratio = tf.exp(OLDNEGLOGPAC - neglogpac)` (policy.py line 99). -/
def ratios (rexp : ℚ → ℚ) (li : LossInputs) : List ℚ :=
  List.zipWith (fun o n => rexp (o - n)) li.OLDNEGLOGPAC li.neglogpac

/-- `pg_losses = -ADV * ratio` (policy.py line 102). -/
def pg_losses (rexp : ℚ → ℚ) (li : LossInputs) : List ℚ :=
  List.zipWith (fun a r => -a * r) li.ADV (ratios rexp li)

/-- `pg_losses2 = -ADV * tf.clip_by_value(ratio, 1 - clip_range, 1 + clip_range)`
(policy.py lines 104-105). -/
def pg_losses2 (rexp : ℚ → ℚ) (li : LossInputs) : List ℚ :=
  List.zipWith
    (fun a r => -a * clip_by_value r (1 - li.clip_range) (1 + li.clip_range))
    li.ADV (ratios rexp li)

/-- `pg_loss = tf.reduce_mean(tf.maximum(pg_losses, pg_losses2))`
(policy.py line 108). -/
def pg_loss (rexp : ℚ → ℚ) (li : LossInputs) : ℚ :=
  mean (List.zipWith max (pg_losses rexp li) (pg_losses2 rexp li))

/-- `vpredclipped = OLDVPRED + tf.clip_by_value(train_model.vf - OLDVPRED,
-clip_range, clip_range)` (policy.py lines 89-90). -/
def vpredclipped (li : LossInputs) : List ℚ :=
  List.zipWith
    (fun ov vp => ov + clip_by_value (vp - ov) (-li.clip_range) li.clip_range)
    li.OLDVPRED li.vpred

/-- `vf_losses1 = tf.square(vpred - R)` (policy.py line 92). -/
def vf_losses1 (li : LossInputs) : List ℚ :=
  List.zipWith (fun vp r => (vp - r) ^ 2) li.vpred li.R

/-- `vf_losses2 = tf.square(vpredclipped - R)` (policy.py line 94). -/
def vf_losses2 (li : LossInputs) : List ℚ :=
  List.zipWith (fun vc r => (vc - r) ^ 2) (vpredclipped li) li.R

/-- `vf_loss = .5 * tf.reduce_mean(tf.maximum(vf_losses1, vf_losses2))`
(policy.py line 96). -/
def vf_loss (li : LossInputs) : ℚ :=
  (1 / 2) * mean (List.zipWith max (vf_losses1 li) (vf_losses2 li))

/-- `entropy = tf.reduce_mean(train_model.pd.entropy())` (policy.py line 84). -/
def entropy (li : LossInputs) : ℚ := mean li.entropies

/-- `approxkl = .5 * tf.reduce_mean(tf.square(neglogpac - OLDNEGLOGPAC))`
(policy.py line 109). -/
def approxkl (li : LossInputs) : ℚ :=
  (1 / 2) * mean (List.zipWith (fun n o => (n - o) ^ 2) li.neglogpac li.OLDNEGLOGPAC)

/-- `clipfrac = tf.reduce_mean(tf.to_float(tf.greater(tf.abs(ratio - 1.0),
clip_range)))` (policy.py lines 110-111). -/
def clipfrac (rexp : ℚ → ℚ) (li : LossInputs) : ℚ :=
  mean ((ratios rexp li).map (fun r => if li.clip_range < |r - 1| then (1 : ℚ) else 0))

/-- `loss = pg_loss - entropy * ent_coef + vf_loss * vf_coef`
(policy.py line 114): the objective handed to
`trainer.compute_gradients(loss, params)`. -/
def loss (rexp : ℚ → ℚ) (li : LossInputs) (ent_coef vf_coef : ℚ) : ℚ :=
  pg_loss rexp li - entropy li * ent_coef + vf_loss li * vf_coef

end Model

/-- The optimizer object built by `Model.__init__` to apply the gradients.
`adamOptimizer eps` is `tf.train.AdamOptimizer(learning_rate=LR, epsilon=eps)`,
a single-process optimizer; `mpiAdamOptimizer` is
`baselines.common.mpi_adam_optimizer.MpiAdamOptimizer`, the variant (imported
on policy.py line 8 together with `mpi4py`) that averages gradients across the
MPI communicator before applying them. -/
inductive Trainer where
  | adamOptimizer (epsilon : ℚ)
  | mpiAdamOptimizer

/-- Whether a trainer's gradient application performs multi-process gradient
synchronization (averaging across the MPI communicator).  Modelled from the
spec's description of `MpiAdamOptimizer` ("multi-process gradient
synchronization"); `tf.train.AdamOptimizer` is single-process. -/
def Trainer.syncs_gradients : Trainer → Bool
  | .adamOptimizer _ => false
  | .mpiAdamOptimizer => true

/-- `tf.clip_by_global_norm(grads, clip_norm)`: every entry is scaled by
`clip_norm / max (global_norm, clip_norm)` where `global_norm` is the square
root of the sum of squares of all entries (the square root passed as
`rsqrt`). -/
def clip_by_global_norm (rsqrt : ℚ → ℚ) (grads : List ℚ) (clip_norm : ℚ) :
    List ℚ :=
  grads.map (fun g =>
    g * clip_norm / max (rsqrt ((grads.map (fun t => t ^ 2)).sum)) clip_norm)

namespace Model

/-- Policy.py lines 125-128: gradients are clipped by global norm exactly when
`max_grad_norm is not None`, otherwise left unmodified. -/
def grads_after_clipping (rsqrt : ℚ → ℚ) (max_grad_norm : Option ℚ)
    (grads : List ℚ) : List ℚ :=
  match max_grad_norm with
  | none => grads
  | some m => clip_by_global_norm rsqrt grads m

/-- Policy.py line 120: `self.trainer = tf.train.AdamOptimizer(learning_rate=LR,
epsilon=1e-5)`, built unconditionally, whether or not MPI imported. -/
def trainer_built (mpi_available : Bool) : Trainer :=
  Trainer.adamOptimizer (1 / 100000)

/-- Policy.py lines 149-152: `sync_from_root` broadcasts the freshly
initialized global variables from the root process, executed iff
`MPI is not None`. -/
def init_sync_from_root (mpi_available : Bool) : Bool := mpi_available

/-- The gradient-update pipeline assembled by `Model.__init__` (policy.py
lines 116-152): the differentiated objective handed to `compute_gradients`,
the gradients actually applied by `apply_gradients` (after the optional
global-norm clipping) as a function of the raw autodiff gradients
`raw_grads`, the optimizer object, and whether initial-variable
synchronization runs. -/
structure GradPipeline where
  objective : ℚ
  grads_applied : List ℚ
  trainer : Trainer
  init_sync : Bool

/-- Policy.py lines 113-152 as one record.  `raw_grads` stands for the output
of `trainer.compute_gradients(loss, params)`, which is produced by the host
framework's autodiff and is therefore a parameter of the embedding. -/
def grad_pipeline (rexp rsqrt : ℚ → ℚ) (li : LossInputs)
    (ent_coef vf_coef : ℚ) (max_grad_norm : Option ℚ) (raw_grads : List ℚ)
    (mpi_available : Bool) : GradPipeline :=
  GradPipeline.mk (loss rexp li ent_coef vf_coef)
    (grads_after_clipping rsqrt max_grad_norm raw_grads)
    (trainer_built mpi_available)
    (init_sync_from_root mpi_available)

/-- `self.stats_list = [pg_loss, vf_loss, entropy, approxkl, clipfrac]`
(policy.py line 137), evaluated on a batch. -/
def stats_list (rexp : ℚ → ℚ) (li : LossInputs) : List ℚ :=
  [pg_loss rexp li, vf_loss li, entropy li, approxkl li, clipfrac rexp li]

/-- `self.loss_names = ['policy_loss', 'value_loss', 'policy_entropy',
'approxkl', 'clipfrac']` (policy.py lines 135-136). -/
def loss_names : List String :=
  ["policy_loss", "value_loss", "policy_entropy", "approxkl", "clipfrac"]

/-- `advs = returns - values` (policy.py line 194). -/
def advs_raw (returns values : List ℚ) : List ℚ :=
  List.zipWith (fun r v => r - v) returns values

/-- `advs = (advs - advs.mean()) / (advs.std() + 1e-8)` (policy.py line 197). -/
def normalize_advs (rsqrt : ℚ → ℚ) (advs : List ℚ) : List ℚ :=
  advs.map (fun a => (a - mean advs) / (np_std rsqrt advs + 1 / 100000000))

/-- The value `Model.train` binds to the `ADV` placeholder in `td_map`
(policy.py lines 194-202): the normalized difference of returns and values. -/
def train_adv_feed (rsqrt : ℚ → ℚ) (returns values : List ℚ) : List ℚ :=
  normalize_advs rsqrt (advs_raw returns values)

/-- The `LossInputs` induced by one `Model.train` call (policy.py lines
199-208): `ADV` gets the normalized advantages, `R` the returns,
`OLDNEGLOGPAC` the sampled `neglogpacs`, `OLDVPRED` the sampled `values`,
and `clip_range` the current clip range; `neglogpac`, `entropies` and
`vpred` are the train model's network outputs on the fed observations and
actions, produced by the host framework and hence parameters. -/
def train_loss_inputs (rsqrt : ℚ → ℚ) (clip_range : ℚ)
    (returns values neglogpacs : List ℚ)
    (net_neglogpac net_entropies net_vpred : List ℚ) : LossInputs :=
  LossInputs.mk (train_adv_feed rsqrt returns values) returns neglogpacs
    values net_neglogpac net_entropies net_vpred clip_range

/-- One element of the list handed to `sess.run` in `Model.train`: either a
statistic tensor's value or the (valueless) training op. -/
inductive RunOutput where
  | stat (value : ℚ)
  | op

/-- `self.stats_list + [self._train_op]`, the fetch list of
`sess.run` in `Model.train` (policy.py lines 213-215). -/
def run_fetches (rexp : ℚ → ℚ) (li : LossInputs) : List RunOutput :=
  (stats_list rexp li).map RunOutput.stat ++ [RunOutput.op]

/-- `Model.train`'s return value: `sess.run(stats_list + [train_op])[:-1]`
(policy.py lines 213-216), i.e. all fetched values but the last. -/
def train_result (rexp : ℚ → ℚ) (li : LossInputs) : List RunOutput :=
  (run_fetches rexp li).dropLast

end Model

/-- The Python exceptions the embedded code can raise. -/
inductive PyExc where
  | notImplementedError
deriving DecidableEq

/-- A numpy array as the base-policy helpers use it: one- or two-dimensional,
with entries of an arbitrary type `α`. -/
inductive NDArr (α : Type) where
  | d1 : List α → NDArr α
  | d2 : List (List α) → NDArr α
deriving DecidableEq

/-- `numpy.ndarray.flatten`: a one-dimensional copy of the array. -/
def NDArr.flat {α : Type} : NDArr α → NDArr α
  | .d1 l => .d1 l
  | .d2 m => .d1 m.flatten

/-- `numpy.concatenate((a, b), axis=axis)` for the shapes the base policy
uses: along axis 0 the arrays are appended (same dimensionality required);
along axis 1 the rows of two 2-D arrays with equal row counts are appended
pairwise; any other combination is a numpy error, returned as `none`. -/
def np_concatenate {α : Type} (a b : NDArr α) (axis : ℕ) : Option (NDArr α) :=
  match axis, a, b with
  | 0, .d1 x, .d1 y => some (.d1 (x ++ y))
  | 0, .d2 x, .d2 y => some (.d2 (x ++ y))
  | 1, .d2 x, .d2 y =>
      if x.length = y.length then
        some (.d2 (List.zipWith (fun r s => r ++ s) x y))
      else none
  | _, _, _ => none

/-- The base `Policy` object of `hbaselines/base_policies/base.py`: its
`__init__` only stores the constructor arguments as attributes.  Framework
objects (the session, the three gym spaces, and the activation function)
carry an arbitrary type. -/
structure Policy (Obj : Type) where
  sess : Obj
  ob_space : Obj
  ac_space : Obj
  co_space : Obj
  verbose : ℤ
  layer_norm : Bool
  layers : Option (List ℕ)
  act_fun : Obj
  use_huber : Bool

/-- `Policy.initialize` (base.py lines 79-85): `raise NotImplementedError`. -/
def Policy.initialize {Obj : Type} (p : Policy Obj) : Except PyExc Unit :=
  Except.error PyExc.notImplementedError

/-- `Policy.update` (base.py lines 87-96): `raise NotImplementedError`. -/
def Policy.update {Obj : Type} (p : Policy Obj) (update_actor : Bool) :
    Except PyExc Unit :=
  Except.error PyExc.notImplementedError

/-- `Policy.get_action` (base.py lines 98-124): `raise NotImplementedError`. -/
def Policy.get_action {Obj : Type} (p : Policy Obj) (obs : NDArr ℚ)
    (context : Option (NDArr ℚ)) (apply_noise random_actions : Bool)
    (env_num : ℕ) : Except PyExc (NDArr ℚ) :=
  Except.error PyExc.notImplementedError

/-- `Policy.get_td_map` (base.py lines 126-128): `raise NotImplementedError`. -/
def Policy.get_td_map {Obj : Type} (p : Policy Obj) :
    Except PyExc (List (Obj × NDArr ℚ)) :=
  Except.error PyExc.notImplementedError

/-- The static method `Policy._get_obs` (base.py lines 130-160): if the
context is not `None` it is flattened when `axis == 0` and concatenated onto
the observation along `axis`; otherwise the observation is returned
untouched. -/
def Policy._get_obs {α : Type} (obs : NDArr α) (context : Option (NDArr α))
    (axis : ℕ) : Option (NDArr α) :=
  match context with
  | none => some obs
  | some c => np_concatenate obs (if axis = 0 then NDArr.flat c else c) axis

/-- Ternary pointwise zip, truncating at the shortest list; used only to state
per-sample forms of the batch losses. -/
def zipWith3 {α β γ δ : Type} (f : α → β → γ → δ) :
    List α → List β → List γ → List δ
  | a :: as, b :: bs, c :: cs => f a b c :: zipWith3 f as bs cs
  | _, _, _ => []

/-- `tf.maximum` of two elementwise images of the same pair of tensors is the
elementwise maximum of the images. -/
theorem zipWith_max_fuse (f g : ℚ → ℚ → ℚ) :
    ∀ (l₁ l₂ : List ℚ),
      List.zipWith max (List.zipWith f l₁ l₂) (List.zipWith g l₁ l₂) =
        List.zipWith (fun a b => max (f a b) (g a b)) l₁ l₂ := by
  intro l₁
  induction l₁ with
  | nil => intro l₂; simp
  | cons a t ih =>
      intro l₂
      cases l₂ with
      | nil => simp
      | cons b s => simp [ih]

/-- Fusing the three-tensor shape of the clipped value loss into one ternary
pointwise operation. -/
theorem zipWith_max_clip_fuse (f g k : ℚ → ℚ → ℚ) :
    ∀ (vp ov r : List ℚ),
      List.zipWith max (List.zipWith f vp r)
          (List.zipWith g (List.zipWith k ov vp) r) =
        zipWith3 (fun v o c => max (f v c) (g (k o v) c)) vp ov r := by
  intro vp
  induction vp with
  | nil => intro ov r; cases ov <;> cases r <;> simp [zipWith3]
  | cons v vt ih =>
      intro ov r
      cases ov with
      | nil => cases r <;> simp [zipWith3]
      | cons o ot =>
          cases r with
          | nil => simp [zipWith3]
          | cons c ct => simp [zipWith3, ih]

/-- Summing a centered, rescaled list. -/
theorem sum_map_center_div (l : List ℚ) (c d : ℚ) :
    (l.map (fun a => (a - c) / d)).sum = (l.sum - l.length * c) / d := by
  induction l with
  | nil => simp
  | cons a t ih =>
      simp only [List.map_cons, List.sum_cons, List.length_cons, ih,
        div_add_div_same]
      congr 1
      push_cast
      ring

/-- The mean of squared deviations is nonnegative. -/
theorem variance_nonneg (l : List ℚ) :
    0 ≤ mean (l.map (fun a => (a - mean l) ^ 2)) := by
  refine div_nonneg (List.sum_nonneg ?_) (Nat.cast_nonneg _)
  intro x hx
  rcases List.mem_map.1 hx with ⟨a, _, rfl⟩
  exact sq_nonneg _

/-- C1.  In `Model.__init__` the policy-gradient loss is the clipped
probability-ratio surrogate: with `ratio = exp(OLDNEGLOGPAC - neglogpac)`,
`pg_loss` is the batch mean of
`max (-ADV * ratio) (-ADV * clip ratio (1 - clip_range) (1 + clip_range))`,
and (for a nonnegative clip range) every sample's clipped ratio lies within
the clip interval `[1 - clip_range, 1 + clip_range]`. -/
theorem pg_loss_is_clipped_surrogate (rexp : ℚ → ℚ) (li : LossInputs)
    (hc : 0 ≤ li.clip_range) :
    Model.pg_loss rexp li =
        mean (List.zipWith
          (fun a r => max (-a * r)
            (-a * clip_by_value r (1 - li.clip_range) (1 + li.clip_range)))
          li.ADV (Model.ratios rexp li))
      ∧ ((Model.ratios rexp li).all (fun r =>
          decide (1 - li.clip_range ≤
              clip_by_value r (1 - li.clip_range) (1 + li.clip_range)
            ∧ clip_by_value r (1 - li.clip_range) (1 + li.clip_range) ≤
              1 + li.clip_range))) = true := by
  constructor
  · unfold Model.pg_loss Model.pg_losses Model.pg_losses2
    rw [zipWith_max_fuse]
  · rw [List.all_eq_true]
    intro r _
    rw [decide_eq_true_iff]
    constructor
    · exact le_min (le_max_right _ _) (by linarith)
    · exact min_le_right _ _

/-- Witness for C1 at a concrete batch. -/
theorem pg_loss_is_clipped_surrogate_witness :
    (0 : ℚ) ≤ (LossInputs.mk [1] [0] [0] [0] [0] [0] [0] (1 / 5)).clip_range
    ∧ (Model.pg_loss id (LossInputs.mk [1] [0] [0] [0] [0] [0] [0] (1 / 5)) =
        mean (List.zipWith
          (fun a r => max (-a * r)
            (-a * clip_by_value r (1 - (1 / 5)) (1 + (1 / 5))))
          [1] (Model.ratios id (LossInputs.mk [1] [0] [0] [0] [0] [0] [0] (1 / 5))))
      ∧ ((Model.ratios id (LossInputs.mk [1] [0] [0] [0] [0] [0] [0] (1 / 5))).all
          (fun r => decide (1 - (1 / 5 : ℚ) ≤ clip_by_value r (1 - (1 / 5)) (1 + (1 / 5))
            ∧ clip_by_value r (1 - (1 / 5)) (1 + (1 / 5)) ≤ 1 + (1 / 5)))) = true) :=
  ⟨by norm_num,
    pg_loss_is_clipped_surrogate id
      (LossInputs.mk [1] [0] [0] [0] [0] [0] [0] (1 / 5)) (by norm_num)⟩

/-- C2.  In `Model.__init__` the value loss is the clipped squared-error
loss: with `vpredclipped = OLDVPRED + clip (vpred - OLDVPRED) (-clip_range)
clip_range`, `vf_loss` is half the batch mean of the elementwise maximum of
the unclipped and clipped squared errors against the returns `R`. -/
theorem vf_loss_is_clipped_squared_error (li : LossInputs) :
    Model.vf_loss li = (1 / 2) * mean (zipWith3
      (fun vp ov r => max ((vp - r) ^ 2)
        ((ov + clip_by_value (vp - ov) (-li.clip_range) li.clip_range - r) ^ 2))
      li.vpred li.OLDVPRED li.R) := by
  unfold Model.vf_loss Model.vf_losses1 Model.vf_losses2 Model.vpredclipped
  rw [zipWith_max_clip_fuse]

/-- C3.  The objective `Model.__init__` differentiates is exactly
`pg_loss - ent_coef * entropy + vf_coef * vf_loss`; no other term enters it. -/
theorem total_loss_combination (rexp rsqrt : ℚ → ℚ) (li : LossInputs)
    (ent_coef vf_coef : ℚ) (max_grad_norm : Option ℚ) (raw_grads : List ℚ)
    (mpi_available : Bool) :
    (Model.grad_pipeline rexp rsqrt li ent_coef vf_coef max_grad_norm raw_grads
        mpi_available).objective =
      Model.pg_loss rexp li - ent_coef * Model.entropy li
        + vf_coef * Model.vf_loss li := by
  show Model.loss rexp li ent_coef vf_coef = _
  unfold Model.loss
  ring

/-- C7.  Gradients are clipped by global norm to `max_grad_norm` exactly when
it is not `None`; with `max_grad_norm = None` the raw gradients are applied
unmodified. -/
theorem grad_clipping_iff_max_grad_norm (rexp rsqrt : ℚ → ℚ) (li : LossInputs)
    (ent_coef vf_coef : ℚ) (raw_grads : List ℚ) (mpi_available : Bool) :
    (Model.grad_pipeline rexp rsqrt li ent_coef vf_coef none raw_grads
        mpi_available).grads_applied = raw_grads
    ∧ ∀ m : ℚ,
        (Model.grad_pipeline rexp rsqrt li ent_coef vf_coef (some m) raw_grads
          mpi_available).grads_applied =
        clip_by_global_norm rsqrt raw_grads m :=
  ⟨rfl, fun _ => rfl⟩

/-- C4, counterexample.  With returns `[1, 3]` and values `[0, 0]` (so raw
advantages `[1, 3]`, whose standard deviation is exactly `1`, computed here
with the square root instantiated as `id` since `id 1 = 1`), the value
`Model.train` feeds to `ADV` is not `returns - values`: line 197 normalizes
the advantages first. -/
theorem adv_feed_not_raw_difference :
    Model.train_adv_feed id [1, 3] [0, 0] ≠ Model.advs_raw [1, 3] [0, 0] := by
  norm_num [Model.train_adv_feed, Model.normalize_advs, Model.advs_raw,
    np_std, mean]

/-- C4, amended.  The value fed to the `ADV` placeholder by every
`Model.train` call is the normalized elementwise difference: with
`advs = returns - values`, it is `(advs - mean advs) / (std advs + 1e-8)`. -/
theorem adv_feed_is_normalized_difference (rsqrt : ℚ → ℚ)
    (returns values : List ℚ) :
    Model.train_adv_feed rsqrt returns values =
      (List.zipWith (fun r v => r - v) returns values).map
        (fun a =>
          (a - mean (List.zipWith (fun r v => r - v) returns values)) /
            (np_std rsqrt (List.zipWith (fun r v => r - v) returns values)
              + 1 / 100000000)) :=
  rfl

/-- C5, counterexample.  Even with MPI available, the optimizer built by
`Model.__init__` (policy.py line 120) is the plain single-process
`tf.train.AdamOptimizer`; applying gradients with it performs no
multi-process gradient synchronization. -/
theorem trainer_does_not_sync_gradients :
    Trainer.syncs_gradients
      ((Model.grad_pipeline id id (LossInputs.mk [] [] [] [] [] [] [] 0)
          0 0 none [] true).trainer) = false :=
  rfl

/-- C5, amended.  Whether or not MPI is available, the optimizer applying the
gradients is `tf.train.AdamOptimizer(epsilon=1e-5)` and synchronizes nothing
across processes; the only MPI synchronization in the class is
`sync_from_root` on the freshly initialized variables, run iff MPI is
available. -/
theorem trainer_is_plain_adam (rexp rsqrt : ℚ → ℚ) (li : LossInputs)
    (ent_coef vf_coef : ℚ) (max_grad_norm : Option ℚ) (raw_grads : List ℚ)
    (mpi_available : Bool) :
    (Model.grad_pipeline rexp rsqrt li ent_coef vf_coef max_grad_norm raw_grads
        mpi_available).trainer = Trainer.adamOptimizer (1 / 100000)
    ∧ Trainer.syncs_gradients
        ((Model.grad_pipeline rexp rsqrt li ent_coef vf_coef max_grad_norm
          raw_grads mpi_available).trainer) = false
    ∧ (Model.grad_pipeline rexp rsqrt li ent_coef vf_coef max_grad_norm
        raw_grads mpi_available).init_sync = mpi_available :=
  ⟨rfl, rfl, rfl⟩

/-- C6.  `approxkl` is half the batch mean of the squared difference of the
new and old negative log-probabilities; the differentiated loss is the
three-term combination in which it does not occur; and every `Model.train`
call returns exactly the five statistics
`policy_loss, value_loss, policy_entropy, approxkl, clipfrac` in that order
(the fetched training op is dropped by `[:-1]`). -/
theorem approxkl_diagnostic_only (rexp rsqrt : ℚ → ℚ) (clip_range : ℚ)
    (returns values neglogpacs net_neglogpac net_entropies net_vpred : List ℚ)
    (ent_coef vf_coef : ℚ) :
    Model.approxkl (Model.train_loss_inputs rsqrt clip_range returns values
        neglogpacs net_neglogpac net_entropies net_vpred) =
      (1 / 2) * mean (List.zipWith (fun n o => (n - o) ^ 2) net_neglogpac
        neglogpacs)
    ∧ Model.loss rexp (Model.train_loss_inputs rsqrt clip_range returns values
        neglogpacs net_neglogpac net_entropies net_vpred) ent_coef vf_coef =
      Model.pg_loss rexp (Model.train_loss_inputs rsqrt clip_range returns
          values neglogpacs net_neglogpac net_entropies net_vpred)
        - Model.entropy (Model.train_loss_inputs rsqrt clip_range returns
            values neglogpacs net_neglogpac net_entropies net_vpred) * ent_coef
        + Model.vf_loss (Model.train_loss_inputs rsqrt clip_range returns
            values neglogpacs net_neglogpac net_entropies net_vpred) * vf_coef
    ∧ Model.train_result rexp (Model.train_loss_inputs rsqrt clip_range returns
        values neglogpacs net_neglogpac net_entropies net_vpred) =
      [Model.RunOutput.stat (Model.pg_loss rexp (Model.train_loss_inputs rsqrt
          clip_range returns values neglogpacs net_neglogpac net_entropies
          net_vpred)),
       Model.RunOutput.stat (Model.vf_loss (Model.train_loss_inputs rsqrt clip_range
          returns values neglogpacs net_neglogpac net_entropies net_vpred)),
       Model.RunOutput.stat (Model.entropy (Model.train_loss_inputs rsqrt clip_range
          returns values neglogpacs net_neglogpac net_entropies net_vpred)),
       Model.RunOutput.stat (Model.approxkl (Model.train_loss_inputs rsqrt clip_range
          returns values neglogpacs net_neglogpac net_entropies net_vpred)),
       Model.RunOutput.stat (Model.clipfrac rexp (Model.train_loss_inputs rsqrt
          clip_range returns values neglogpacs net_neglogpac net_entropies
          net_vpred))]
    ∧ Model.loss_names =
      ["policy_loss", "value_loss", "policy_entropy", "approxkl", "clipfrac"] :=
  ⟨rfl, rfl, rfl, rfl⟩

/-- C8.  Every instance method of the abstract `Policy` raises
`NotImplementedError` for every instance and all arguments, with no other
effect. -/
theorem policy_methods_not_implemented :
    ∀ (Obj : Type) (p : Policy Obj) (update_actor : Bool) (obs : NDArr ℚ)
      (context : Option (NDArr ℚ)) (apply_noise random_actions : Bool)
      (env_num : ℕ),
      Policy.initialize p = Except.error PyExc.notImplementedError
      ∧ Policy.update p update_actor = Except.error PyExc.notImplementedError
      ∧ Policy.get_action p obs context apply_noise random_actions env_num =
          Except.error PyExc.notImplementedError
      ∧ Policy.get_td_map p = Except.error PyExc.notImplementedError :=
  fun _ _ _ _ _ _ _ _ => ⟨rfl, rfl, rfl, rfl⟩

/-- Centering a list at its mean and rescaling gives a list of mean zero. -/
theorem mean_centered (l : List ℚ) (d : ℚ) (hl : (l.length : ℚ) ≠ 0) :
    mean (l.map (fun a => (a - mean l) / d)) = 0 := by
  unfold mean
  rw [List.length_map, sum_map_center_div]
  have h2 : l.sum - (l.length : ℚ) * (l.sum / l.length) = 0 := by
    field_simp
  rw [h2, zero_div, zero_div]

/-- C9.  Every `Model.train` call normalizes the raw advantages before use:
the value fed to `ADV` is `(advs - mean advs) / (std advs + 1e-8)`; for
every batch whatsoever — in particular when all advantages are equal, where
the standard deviation is the square root of zero — the divisor is strictly
positive, so the computation never divides by zero; and for a batch of
nonzero advantage spread (nonzero mean squared deviation) the fed values
have mean zero.  The hypothesis on `rsqrt` is the square-root fact used: it
is nonnegative on nonnegative inputs. -/
theorem advantages_normalized_safely (rsqrt : ℚ → ℚ) (returns values : List ℚ)
    (hsq : ∀ x : ℚ, 0 ≤ x → 0 ≤ rsqrt x) :
    Model.train_adv_feed rsqrt returns values =
      (Model.advs_raw returns values).map (fun a =>
        (a - mean (Model.advs_raw returns values)) /
          (np_std rsqrt (Model.advs_raw returns values) + 1 / 100000000))
    ∧ 0 < np_std rsqrt (Model.advs_raw returns values) + 1 / 100000000
    ∧ (mean ((Model.advs_raw returns values).map
        (fun a => (a - mean (Model.advs_raw returns values)) ^ 2)) ≠ 0 →
        mean (Model.train_adv_feed rsqrt returns values) = 0) := by
  have hstd : 0 ≤ np_std rsqrt (Model.advs_raw returns values) :=
    hsq _ (variance_nonneg _)
  refine ⟨rfl, by linarith [show (0 : ℚ) < 1 / 100000000 by norm_num], ?_⟩
  intro hspread
  have hne : Model.advs_raw returns values ≠ [] := by
    intro h
    apply hspread
    rw [h]
    simp [mean]
  have hl : ((Model.advs_raw returns values).length : ℚ) ≠ 0 :=
    Nat.cast_ne_zero.mpr (fun h => hne (List.length_eq_zero.mp h))
  exact mean_centered (Model.advs_raw returns values) _ hl

/-- Witness for C9, with the square root instantiated as the constant-zero
function (nonnegative on nonnegative inputs): divisor positivity at the
all-equal batch returns `[2, 2]`, values `[0, 0]` (raw advantages `[2, 2]`,
zero spread), and the feed formula, divisor positivity and zero mean at the
spread batch returns `[1, 3]`, values `[0, 0]`. -/
theorem advantages_normalized_safely_witness :
    (0 : ℚ) < np_std (fun _ => 0) (Model.advs_raw [2, 2] [0, 0]) + 1 / 100000000
    ∧ (Model.train_adv_feed (fun _ => 0) [1, 3] [0, 0] =
        (Model.advs_raw [1, 3] [0, 0]).map (fun a =>
          (a - mean (Model.advs_raw [1, 3] [0, 0])) /
            (np_std (fun _ => 0) (Model.advs_raw [1, 3] [0, 0])
              + 1 / 100000000))
      ∧ 0 < np_std (fun _ => 0) (Model.advs_raw [1, 3] [0, 0]) + 1 / 100000000
      ∧ mean (Model.train_adv_feed (fun _ => 0) [1, 3] [0, 0]) = 0) :=
  ⟨(advantages_normalized_safely (fun _ => 0) [2, 2] [0, 0]
      (fun _ _ => le_rfl)).2.1,
   (advantages_normalized_safely (fun _ => 0) [1, 3] [0, 0]
      (fun _ _ => le_rfl)).1,
   (advantages_normalized_safely (fun _ => 0) [1, 3] [0, 0]
      (fun _ _ => le_rfl)).2.1,
   (advantages_normalized_safely (fun _ => 0) [1, 3] [0, 0]
      (fun _ _ => le_rfl)).2.2 (by norm_num [Model.advs_raw, mean])⟩

/-- C10.  `Policy._get_obs` returns the observation unchanged, for every
observation and every axis (0 included), when the context is `None`;
otherwise it concatenates the context onto the observation along the given
axis, flattening the context first exactly when the axis is 0. -/
theorem get_obs_identity_and_concat {α : Type} (obs c : NDArr α) (axis : ℕ) :
    Policy._get_obs obs none axis = some obs
    ∧ Policy._get_obs obs (some c) 0 = np_concatenate obs (NDArr.flat c) 0
    ∧ (axis ≠ 0 →
        Policy._get_obs obs (some c) axis = np_concatenate obs c axis) := by
  refine ⟨rfl, rfl, fun h => ?_⟩
  simp [Policy._get_obs, h]

/-- Witness for C10 at concrete arrays: the context-`None` identity at both
axis 0 (the default) and axis 1, the flattening concatenation at axis 0,
and the plain concatenation at axis 1. -/
theorem get_obs_identity_and_concat_witness :
    Policy._get_obs (NDArr.d1 ([1] : List ℚ)) none 0 = some (NDArr.d1 [1])
    ∧ Policy._get_obs (NDArr.d1 ([1] : List ℚ)) none 1 = some (NDArr.d1 [1])
    ∧ Policy._get_obs (NDArr.d1 ([1] : List ℚ)) (some (NDArr.d2 [[2]])) 0 =
        np_concatenate (NDArr.d1 [1]) (NDArr.flat (NDArr.d2 [[2]])) 0
    ∧ Policy._get_obs (NDArr.d1 ([1] : List ℚ)) (some (NDArr.d2 [[2]])) 1 =
        np_concatenate (NDArr.d1 [1]) (NDArr.d2 [[2]]) 1 :=
  ⟨(get_obs_identity_and_concat (NDArr.d1 [1]) (NDArr.d2 [[2]]) 0).1,
   (get_obs_identity_and_concat (NDArr.d1 [1]) (NDArr.d2 [[2]]) 1).1,
   (get_obs_identity_and_concat (NDArr.d1 [1]) (NDArr.d2 [[2]]) 0).2.1,
   (get_obs_identity_and_concat (NDArr.d1 [1]) (NDArr.d2 [[2]]) 1).2.2
     (by decide)⟩

end HB
